import Mathlib

/-!
Verification of the ALVR server connection/CAPI core (`alvr/server/src/connection.rs`,
`alvr/server/src/capi.rs`) against its natural-language specification.

Modelling conventions:
* `f32` scalars are idealized as exact rationals (`ℚ`).  The two places where the
  concrete binary32 format matters are kept explicit: `f32Max` is the largest finite
  `f32` (the initial `min_diff` of the refresh-rate loop) and `f32Eps` is
  `f32::EPSILON = 2⁻²³` (the IPD change threshold).
* The Rust saturating float-to-integer cast (`as u32`) is `castU32`.
* C strings/byte buffers are modelled as `List Char` (one `Char` per byte, `NUL`
  as `Char.ofNat 0`).
* Functions that can panic (`unwrap`, `copy_from_slice`, `unreachable!`) return
  `Option`, with `none` for the panicking executions.
-/

set_option autoImplicit false

namespace ALVRServer

/-- Largest finite `f32`, `(2²⁴ - 1) · 2¹⁰⁴`; the value of `f32::MAX` used to
initialize `min_diff` in the refresh-rate selection loop of `client_handshake`. -/
def f32Max : ℚ := (2 ^ 24 - 1) * 2 ^ 104

/-- Value of `f32::EPSILON` (2⁻²³), the IPD-change threshold in the input receive loop. -/
def f32Eps : ℚ := 1 / 2 ^ 23

/-- Value of `u32::MAX`. -/
def u32Max : ℕ := 2 ^ 32 - 1

/-- Rust `as u32` cast applied to an (idealized, integral) float value:
negative values saturate to `0`, values above `u32::MAX` saturate to `u32::MAX`. -/
def castU32 (x : ℤ) : ℕ :=
  if x < 0 then 0 else min x.toNat u32Max

/-- Function `align32` of connection.rs: `((value / 32.).floor() * 32.) as u32`. -/
def align32 (value : ℚ) : ℕ :=
  castU32 (⌊value / 32⌋ * 32)

/-- The value `⌊value / 32⌋ * 32` before the `as u32` cast in `align32`. -/
def align32Pre (value : ℚ) : ℤ :=
  ⌊value / 32⌋ * 32

/-! ## Refresh rate selection (`client_handshake`, connection.rs lines 157-175) -/

/-- The body of the `for rr in &headset_info.available_refresh_rates` loop:
state `(best_match, min_diff)` starts at `(0, f32::MAX)`; an offered rate replaces
the current best exactly when its distance to the preferred fps is strictly
smaller than `min_diff`. -/
def selectFpsLoop (preferred : ℚ) : List ℚ → ℚ × ℚ → ℚ × ℚ
  | [], acc => acc
  | rr :: rest, (best, minDiff) =>
    let diff := |rr - preferred|
    if diff < minDiff then selectFpsLoop preferred rest (rr, diff)
    else selectFpsLoop preferred rest (best, minDiff)

/-- The `fps` block of `client_handshake`: run the loop from `(0, f32::MAX)` and keep
the final `best_match`. -/
def selectFps (preferred : ℚ) (rates : List ℚ) : ℚ :=
  (selectFpsLoop preferred rates (0, f32Max)).1

/-- Flag telling whether `client_handshake` emits the unsupported-refresh-rate warning:
`!available_refresh_rates.contains(&preferred_fps)`. -/
def refreshRateWarning (preferred : ℚ) (rates : List ℚ) : Bool :=
  ! rates.contains preferred

/-- Specification-side definition (from the words of the spec, for comparison with
`selectFps`): the element of the list minimizing `|rate - preferred|`, ties
broken by first occurrence. -/
def specArgminFirst (preferred : ℚ) : List ℚ → Option ℚ
  | [] => none
  | r :: rs =>
    match specArgminFirst preferred rs with
    | none => some r
    | some b => if |r - preferred| ≤ |b - preferred| then some r else some b

theorem specArgminFirst_mem {preferred : ℚ} :
    ∀ {rs : List ℚ} {m : ℚ}, specArgminFirst preferred rs = some m → m ∈ rs := by
  intro rs
  induction rs with
  | nil => intro m h; simp [specArgminFirst] at h
  | cons r rest ih =>
    intro m h
    simp only [specArgminFirst] at h
    cases hrest : specArgminFirst preferred rest with
    | none => rw [hrest] at h; simp at h; simp [h]
    | some b =>
      rw [hrest] at h
      by_cases hle : |r - preferred| ≤ |b - preferred|
      · simp [hle] at h; simp [h]
      · simp [hle] at h
        exact List.mem_cons_of_mem r (h ▸ ih hrest)

/-! ## Well-known device path ids

Modelled from the spec: `HEAD_ID`, `LEFT_HAND_ID`, `RIGHT_HAND_ID` are
process-stable hash-of-path constants defined in `alvr_common` (not part of the
three source files); the invariant stated by the spec is only that they are stable and that
equality with input path ids is the only identity test, so they are modelled as
three distinct numeric constants. -/

def HEAD_ID : ℕ := 1001

def LEFT_HAND_ID : ℕ := 1002

def RIGHT_HAND_ID : ℕ := 1003

/-! ## Settings snapshot (fields of the session settings read by the core) -/

/-- Type `settings_schema::Switch`, used by `to_settings`-derived settings. -/
inductive Switch (α : Type) where
  | enabled (content : α)
  | disabled
  deriving DecidableEq

/-- The session-settings form of an optional block: the `enabled` flag plus the
always-present `content` (the source reads `.enabled` and `.content`
independently on `session_settings`). -/
structure SessionSwitch (α : Type) where
  enabled : Bool
  content : α
  deriving DecidableEq

inductive CodecType where
  | h264
  | hevc
  deriving DecidableEq

/-- Frame size setting: either a scale factor of the recommended client eye size or
an absolute total width/height. -/
inductive FrameSize where
  | scale (factor : ℚ)
  | absolute (width height : ℕ)
  deriving DecidableEq

/-- Fields of `settings.headset.controllers` content read by `client_handshake`. -/
structure ControllersDesc where
  clientside_prediction : Bool
  pose_time_offset : ℚ
  deriving DecidableEq

structure VideoDesc where
  render_resolution : FrameSize
  recommended_target_resolution : FrameSize
  preferred_fps : ℚ
  seconds_from_vsync_to_photons : ℚ
  adapter_index : ℕ
  codec : CodecType
  use_10bit_encoder : Bool
  encode_bitrate_mbs : ℕ
  deriving DecidableEq

structure HeadsetDesc where
  universe_id : ℕ
  serial_number : String
  tracking_system_name : String
  model_number : String
  driver_version : String
  manufacturer_name : String
  render_model_name : String
  registered_device_type : String
  force_3dof : Bool
  tracking_ref_only : Bool
  enable_vive_tracker_proxy : Bool
  position_offset : ℚ × ℚ × ℚ
  tracking_frame_offset : ℤ
  controllers : Switch ControllersDesc
  deriving DecidableEq

structure ConnectionDesc where
  web_server_port : ℕ
  aggressive_keyframe_resend : Bool
  deriving DecidableEq

/-- The resolved settings snapshot (`SESSION_MANAGER.lock().get().to_settings()`),
restricted to the fields the connection core reads. -/
structure Settings where
  video : VideoDesc
  headset : HeadsetDesc
  connection : ConnectionDesc
  deriving DecidableEq

structure LatencyUseFrametimeDesc where
  latency_target_maximum : ℕ
  latency_target_offset : ℤ
  deriving DecidableEq

structure AdaptiveBitrateDesc where
  bitrate_maximum : ℕ
  latency_target : ℕ
  latency_use_frametime : SessionSwitch LatencyUseFrametimeDesc
  latency_threshold : ℚ
  bitrate_up_rate : ℕ
  bitrate_down_rate : ℕ
  bitrate_light_load_threshold : ℚ
  deriving DecidableEq

structure FoveatedRenderingDesc where
  center_size_x : ℚ
  center_size_y : ℚ
  center_shift_x : ℚ
  center_shift_y : ℚ
  edge_ratio_x : ℚ
  edge_ratio_y : ℚ
  deriving DecidableEq

structure ColorCorrectionDesc where
  brightness : ℚ
  contrast : ℚ
  saturation : ℚ
  gamma : ℚ
  sharpening : ℚ
  deriving DecidableEq

/-- Fields of `session_settings.headset.controllers.content` read by the core. -/
structure ControllersSessionDesc where
  tracking_system_name : String
  manufacturer_name : String
  model_number : String
  render_model_name_left : String
  render_model_name_right : String
  serial_number : String
  ctrl_type_left : String
  ctrl_type_right : String
  registered_device_type : String
  input_profile_path : String
  mode_idx : ℕ
  serverside_prediction : Bool
  linear_velocity_cutoff : ℚ
  angular_velocity_cutoff : ℚ
  position_offset_left : ℚ × ℚ × ℚ
  rotation_offset_left : ℚ × ℚ × ℚ
  haptics_intensity : ℚ
  haptics_amplitude_curve : ℚ
  haptics_min_duration : ℚ
  haptics_low_duration_amplitude_multiplier : ℚ
  haptics_low_duration_range : ℚ
  use_headset_tracking_system : Bool
  deriving DecidableEq

structure SessionVideoDesc where
  adaptive_bitrate : SessionSwitch AdaptiveBitrateDesc
  foveated_rendering : SessionSwitch FoveatedRenderingDesc
  color_correction : SessionSwitch ColorCorrectionDesc
  deriving DecidableEq

structure SessionHeadsetDesc where
  serial_number : String
  controllers : SessionSwitch ControllersSessionDesc
  deriving DecidableEq

structure SessionConnectionDesc where
  enable_fec : Bool
  deriving DecidableEq

/-- Record `session_settings` (the raw session-settings subtree), restricted to the
fields the connection core and the CAPI read. -/
structure SessionSettings where
  video : SessionVideoDesc
  headset : SessionHeadsetDesc
  connection : SessionConnectionDesc
  deriving DecidableEq

/-- Packet `HeadsetInfoPacket` received from the client during the handshake. -/
structure HeadsetInfoPacket where
  recommended_eye_width : ℕ
  recommended_eye_height : ℕ
  available_refresh_rates : List ℚ
  reserved : String
  deriving DecidableEq

/-! ## Resolved video parameters (`client_handshake`, connection.rs lines 137-155) -/

/-- The pre-`align32` eye size pair computed from a `FrameSize` setting:
`Scale` multiplies the recommended client per-eye size, `Absolute` uses
`width / 2` and `height`. -/
def eyeSizesRaw (fs : FrameSize) (hi : HeadsetInfoPacket) : ℚ × ℚ :=
  match fs with
  | .scale factor =>
    ((hi.recommended_eye_width : ℚ) * factor, (hi.recommended_eye_height : ℚ) * factor)
  | .absolute width height => ((width : ℚ) / 2, (height : ℚ))

/-- Computed `video_eye_width/height`: `align32` of the render-resolution eye size. -/
def videoEyeDims (s : Settings) (hi : HeadsetInfoPacket) : ℕ × ℕ :=
  let sizes := eyeSizesRaw s.video.render_resolution hi
  (align32 sizes.1, align32 sizes.2)

/-- Computed `target_eye_width/height`: `align32` of the recommended-target-resolution
eye size. -/
def targetEyeDims (s : Settings) (hi : HeadsetInfoPacket) : ℕ × ℕ :=
  let sizes := eyeSizesRaw s.video.recommended_target_resolution hi
  (align32 sizes.1, align32 sizes.2)

/-! ## OpenvrConfig resolution (`client_handshake`, connection.rs lines 227-470)

The `OpenvrConfig` record itself is declared in `alvr_session` (not among the
three source files); its field list is taken from the enumerated construction in
`client_handshake`, and — per the spec — its comparison is bit-equality,
modelled as structural (decidable) equality. -/

structure OpenvrConfig where
  universe_id : ℕ
  headset_serial_number : String
  headset_tracking_system_name : String
  headset_model_number : String
  headset_driver_version : String
  headset_manufacturer_name : String
  headset_render_model_name : String
  headset_registered_device_type : String
  eye_resolution_width : ℕ
  eye_resolution_height : ℕ
  target_eye_resolution_width : ℕ
  target_eye_resolution_height : ℕ
  seconds_from_vsync_to_photons : ℚ
  force_3dof : Bool
  tracking_ref_only : Bool
  enable_vive_tracker_proxy : Bool
  aggressive_keyframe_resend : Bool
  adapter_index : ℕ
  codec : ℕ
  refresh_rate : ℕ
  use_10bit_encoder : Bool
  encode_bitrate_mbs : ℕ
  enable_adaptive_bitrate : Bool
  bitrate_maximum : ℕ
  latency_target : ℕ
  latency_use_frametime : Bool
  latency_target_maximum : ℕ
  latency_target_offset : ℤ
  latency_threshold : ℚ
  bitrate_up_rate : ℕ
  bitrate_down_rate : ℕ
  bitrate_light_load_threshold : ℚ
  controllers_tracking_system_name : String
  controllers_manufacturer_name : String
  controllers_model_number : String
  render_model_name_left_controller : String
  render_model_name_right_controller : String
  controllers_serial_number : String
  controllers_type_left : String
  controllers_type_right : String
  controllers_registered_device_type : String
  controllers_input_profile_path : String
  controllers_mode_idx : ℕ
  controllers_enabled : Bool
  position_offset : ℚ × ℚ × ℚ
  tracking_frame_offset : ℤ
  controller_pose_offset : ℚ
  serverside_prediction : Bool
  linear_velocity_cutoff : ℚ
  angular_velocity_cutoff : ℚ
  position_offset_left : ℚ × ℚ × ℚ
  rotation_offset_left : ℚ × ℚ × ℚ
  haptics_intensity : ℚ
  haptics_amplitude_curve : ℚ
  haptics_min_duration : ℚ
  haptics_low_duration_amplitude_multiplier : ℚ
  haptics_low_duration_range : ℚ
  use_headset_tracking_system : Bool
  enable_foveated_rendering : Bool
  foveation_center_size_x : ℚ
  foveation_center_size_y : ℚ
  foveation_center_shift_x : ℚ
  foveation_center_shift_y : ℚ
  foveation_edge_ratio_x : ℚ
  foveation_edge_ratio_y : ℚ
  enable_color_correction : Bool
  brightness : ℚ
  contrast : ℚ
  saturation : ℚ
  gamma : ℚ
  sharpening : ℚ
  enable_fec : Bool
  deriving DecidableEq

/-- Computed `controller_pose_offset` (connection.rs lines 227-236): zero under
client-side prediction or when controllers are disabled. -/
def controllerPoseOffset (s : Settings) : ℚ :=
  match s.headset.controllers with
  | .enabled content =>
    if content.clientside_prediction then 0 else content.pose_time_offset
  | .disabled => 0

/-- Rust `bool as u32` (used for `codec: matches!(codec, CodecType::HEVC) as _`). -/
def boolToNat (b : Bool) : ℕ := if b then 1 else 0

/-- Rust `f32 as u32` (used for `refresh_rate: fps as _`): truncation toward
zero with saturation; on the nonnegative floats produced here it equals
`castU32 ∘ floor`. -/
def f32ToU32 (q : ℚ) : ℕ := castU32 ⌊q⌋

/-- The `new_openvr_config` record built by `client_handshake`
(connection.rs lines 238-470), as a function of the settings snapshot, the raw
session settings, and the headset info of the client. -/
def resolveOpenvrConfig (s : Settings) (ss : SessionSettings) (hi : HeadsetInfoPacket) :
    OpenvrConfig :=
  let videoDims := videoEyeDims s hi
  let targetDims := targetEyeDims s hi
  let fps := selectFps s.video.preferred_fps hi.available_refresh_rates
  { universe_id := s.headset.universe_id
    headset_serial_number := s.headset.serial_number
    headset_tracking_system_name := s.headset.tracking_system_name
    headset_model_number := s.headset.model_number
    headset_driver_version := s.headset.driver_version
    headset_manufacturer_name := s.headset.manufacturer_name
    headset_render_model_name := s.headset.render_model_name
    headset_registered_device_type := s.headset.registered_device_type
    eye_resolution_width := videoDims.1
    eye_resolution_height := videoDims.2
    target_eye_resolution_width := targetDims.1
    target_eye_resolution_height := targetDims.2
    seconds_from_vsync_to_photons := s.video.seconds_from_vsync_to_photons
    force_3dof := s.headset.force_3dof
    tracking_ref_only := s.headset.tracking_ref_only
    enable_vive_tracker_proxy := s.headset.enable_vive_tracker_proxy
    aggressive_keyframe_resend := s.connection.aggressive_keyframe_resend
    adapter_index := s.video.adapter_index
    codec := boolToNat (s.video.codec = CodecType.hevc)
    refresh_rate := f32ToU32 fps
    use_10bit_encoder := s.video.use_10bit_encoder
    encode_bitrate_mbs := s.video.encode_bitrate_mbs
    enable_adaptive_bitrate := ss.video.adaptive_bitrate.enabled
    bitrate_maximum := ss.video.adaptive_bitrate.content.bitrate_maximum
    latency_target := ss.video.adaptive_bitrate.content.latency_target
    latency_use_frametime := ss.video.adaptive_bitrate.content.latency_use_frametime.enabled
    latency_target_maximum :=
      ss.video.adaptive_bitrate.content.latency_use_frametime.content.latency_target_maximum
    latency_target_offset :=
      ss.video.adaptive_bitrate.content.latency_use_frametime.content.latency_target_offset
    latency_threshold := ss.video.adaptive_bitrate.content.latency_threshold
    bitrate_up_rate := ss.video.adaptive_bitrate.content.bitrate_up_rate
    bitrate_down_rate := ss.video.adaptive_bitrate.content.bitrate_down_rate
    bitrate_light_load_threshold := ss.video.adaptive_bitrate.content.bitrate_light_load_threshold
    controllers_tracking_system_name := ss.headset.controllers.content.tracking_system_name
    controllers_manufacturer_name := ss.headset.controllers.content.manufacturer_name
    controllers_model_number := ss.headset.controllers.content.model_number
    render_model_name_left_controller := ss.headset.controllers.content.render_model_name_left
    render_model_name_right_controller := ss.headset.controllers.content.render_model_name_right
    controllers_serial_number := ss.headset.controllers.content.serial_number
    controllers_type_left := ss.headset.controllers.content.ctrl_type_left
    controllers_type_right := ss.headset.controllers.content.ctrl_type_right
    controllers_registered_device_type := ss.headset.controllers.content.registered_device_type
    controllers_input_profile_path := ss.headset.controllers.content.input_profile_path
    controllers_mode_idx := ss.headset.controllers.content.mode_idx
    controllers_enabled := ss.headset.controllers.enabled
    position_offset := s.headset.position_offset
    tracking_frame_offset := s.headset.tracking_frame_offset
    controller_pose_offset := controllerPoseOffset s
    serverside_prediction := ss.headset.controllers.content.serverside_prediction
    linear_velocity_cutoff := ss.headset.controllers.content.linear_velocity_cutoff
    angular_velocity_cutoff := ss.headset.controllers.content.angular_velocity_cutoff
    position_offset_left := ss.headset.controllers.content.position_offset_left
    rotation_offset_left := ss.headset.controllers.content.rotation_offset_left
    haptics_intensity := ss.headset.controllers.content.haptics_intensity
    haptics_amplitude_curve := ss.headset.controllers.content.haptics_amplitude_curve
    haptics_min_duration := ss.headset.controllers.content.haptics_min_duration
    haptics_low_duration_amplitude_multiplier :=
      ss.headset.controllers.content.haptics_low_duration_amplitude_multiplier
    haptics_low_duration_range := ss.headset.controllers.content.haptics_low_duration_range
    use_headset_tracking_system := ss.headset.controllers.content.use_headset_tracking_system
    enable_foveated_rendering := ss.video.foveated_rendering.enabled
    foveation_center_size_x := ss.video.foveated_rendering.content.center_size_x
    foveation_center_size_y := ss.video.foveated_rendering.content.center_size_y
    foveation_center_shift_x := ss.video.foveated_rendering.content.center_shift_x
    foveation_center_shift_y := ss.video.foveated_rendering.content.center_shift_y
    foveation_edge_ratio_x := ss.video.foveated_rendering.content.edge_ratio_x
    foveation_edge_ratio_y := ss.video.foveated_rendering.content.edge_ratio_y
    enable_color_correction := ss.video.color_correction.enabled
    brightness := ss.video.color_correction.content.brightness
    contrast := ss.video.color_correction.content.contrast
    saturation := ss.video.color_correction.content.saturation
    gamma := ss.video.color_correction.content.gamma
    sharpening := ss.video.color_correction.content.sharpening
    enable_fec := ss.connection.enable_fec }

/-! ## Handshake restart-on-config-drift step (connection.rs lines 472-491) -/

/-- How a `client_handshake` invocation ends: parking forever after requesting a
restart (`future::pending().await`, never returning), or returning a
`ConnectionInfo`. -/
inductive HandshakeOutcome where
  | restartPark
  | connected
  deriving DecidableEq

/-- Observable effects of the tail of `client_handshake`: its outcome, the
`openvr_config` persisted in the session afterwards, whether a
`ServerControlPacket::Restarting` was sent on the control socket, and whether a
driver restart was requested (`crate::notify_restart_driver()`). -/
structure HandshakeStep where
  outcome : HandshakeOutcome
  persistedAfter : OpenvrConfig
  restartingSent : Bool
  driverRestartRequested : Bool
  deriving DecidableEq

/-- The `if SESSION_MANAGER...openvr_config != new_openvr_config` tail of
`client_handshake`: on drift, persist the new config, send `Restarting`, request
a driver restart and park; otherwise return the connection. -/
def clientHandshakeFinish (persisted newConfig : OpenvrConfig) : HandshakeStep :=
  if persisted ≠ newConfig then
    { outcome := .restartPark
      persistedAfter := newConfig
      restartingSent := true
      driverRestartRequested := true }
  else
    { outcome := .connected
      persistedAfter := persisted
      restartingSent := false
      driverRestartRequested := false }

/-- One `client_handshake` pass, from the persisted `openvr_config` and the
inputs the config is resolved from (the settings snapshot, the raw session
settings, and the headset info of the client). -/
def clientHandshake (persisted : OpenvrConfig) (s : Settings) (ss : SessionSettings)
    (hi : HeadsetInfoPacket) : HandshakeStep :=
  clientHandshakeFinish persisted (resolveOpenvrConfig s ss hi)

/-- Packet `ClientConfigPacket` (connection.rs lines 204-220), restricted to the fields
built by the core (`session_desc` is an externally-serialized session snapshot
and `server_version` an externally-parsed semver; both are outside the model). -/
structure ClientConfigPacket where
  dashboard_url : String
  eye_resolution_width : ℕ
  eye_resolution_height : ℕ
  fps : ℚ
  game_audio_sample_rate : ℕ
  reserved : String
  deriving DecidableEq

/-- The `ClientConfigPacket` sent by `client_handshake`, with
`dashboard_url = "http://{server_ip}:{web_server_port}/"`. -/
def clientConfigPacket (s : Settings) (hi : HeadsetInfoPacket) (serverIp : String)
    (gameAudioSampleRate : ℕ) : ClientConfigPacket :=
  let videoDims := videoEyeDims s hi
  { dashboard_url :=
      "http://" ++ serverIp ++ ":" ++ toString s.connection.web_server_port ++ "/"
    eye_resolution_width := videoDims.1
    eye_resolution_height := videoDims.2
    fps := selectFps s.video.preferred_fps hi.available_refresh_rates
    game_audio_sample_rate := gameAudioSampleRate
    reserved := "" }

/-! ## CAPI: serial number (capi.rs lines 376-402) -/

/-- The NUL byte written by C-string packing. -/
def nulChar : Char := Char.ofNat 0

/-- The serial string composed by `alvr_get_serial_number`: the headset serial
for `HEAD_ID`, the controller serial suffixed `_Left`/`_Right` for the hands,
and `unreachable!()` (a panic, modelled as `none`) for any other path. -/
def serialNumberValue (ss : SessionSettings) (path : ℕ) : Option String :=
  if path = HEAD_ID then some ss.headset.serial_number
  else if path = LEFT_HAND_ID then
    some (ss.headset.controllers.content.serial_number ++ "_Left")
  else if path = RIGHT_HAND_ID then
    some (ss.headset.controllers.content.serial_number ++ "_Right")
  else none

/-- The bytes `alvr_get_serial_number` copies into the caller buffer:
`CString::new(value).unwrap()` (panics on an interior NUL, modelled as `none`),
then `copy_nonoverlapping` of `cmp::min(as_bytes_with_nul().len(), max_length)`
bytes of the NUL-terminated string. -/
def alvrGetSerialNumber (ss : SessionSettings) (path : ℕ) (maxLength : ℕ) :
    Option (List Char) := do
  let value ← serialNumberValue ss path
  if value.data.contains nulChar then none
  else
    let withNul := value.data ++ [nulChar]
    some (withNul.take (min withNul.length maxLength))

/-! ## CAPI: property packing (`to_capi_prop`, capi.rs lines 821-849) -/

inductive OpenvrPropValue where
  | bool (value : Bool)
  | float (value : ℚ)
  | int32 (value : ℤ)
  | uint64 (value : ℕ)
  | vector3 (value : ℚ × ℚ × ℚ)
  | double (value : ℚ)
  | string (value : String)
  deriving DecidableEq

/-- CAPI-side property value; the string variant is the fixed `[c_char; 64]`
buffer. -/
inductive AlvrOpenvrPropValue where
  | bool (value : Bool)
  | float (value : ℚ)
  | int32 (value : ℤ)
  | uint64 (value : ℕ)
  | vector3 (value : ℚ × ℚ × ℚ)
  | double (value : ℚ)
  | string (value : List Char)
  deriving DecidableEq

structure AlvrOpenvrProp where
  key : ℕ
  value : AlvrOpenvrPropValue
  deriving DecidableEq

/-- The byte count `to_capi_prop` passes to `copy_nonoverlapping` when packing a
string property into the 64-byte `raw_string` buffer:
`c_string.as_bytes_with_nul().len()`, i.e. the full string length plus the NUL —
the source applies no truncation (assumes no interior NUL, as does the
`CString::new(value).unwrap()` of the source). -/
def toCapiPropStringCopyLen (value : String) : ℕ :=
  value.length + 1

/-- The 64-byte `raw_string` buffer contents after the copy (buffer starts
zeroed; view truncated to the buffer size — for values of length ≥ 64 the copy
in the source writes past the end of the buffer, see the C3 result). -/
def toCapiPropStringBuffer (value : String) : List Char :=
  ((value.data ++ [nulChar]) ++ List.replicate 64 nulChar).take 64

def toCapiPropValue : OpenvrPropValue → AlvrOpenvrPropValue
  | .bool value => .bool value
  | .float value => .float value
  | .int32 value => .int32 value
  | .uint64 value => .uint64 value
  | .vector3 value => .vector3 value
  | .double value => .double value
  | .string value => .string (toCapiPropStringBuffer value)

/-- Function `to_capi_prop` (`key as u32` is the numeric key). -/
def toCapiProp (key : ℕ) (value : OpenvrPropValue) : AlvrOpenvrProp :=
  { key := key, value := toCapiPropValue value }

/-! ## Input receive loop (connection.rs lines 852-1084) -/

structure QuatQ where
  x : ℚ
  y : ℚ
  z : ℚ
  w : ℚ
  deriving DecidableEq

structure Vec3Q where
  x : ℚ
  y : ℚ
  z : ℚ
  deriving DecidableEq

/-- Value `Quat::IDENTITY`. -/
def quatIdentity : QuatQ := ⟨0, 0, 0, 1⟩

/-- Value `Vec3::ZERO`. -/
def vec3Zero : Vec3Q := ⟨0, 0, 0⟩

structure MotionData where
  orientation : QuatQ
  position : Vec3Q
  linear_velocity : Option Vec3Q
  angular_velocity : Option Vec3Q
  deriving DecidableEq

/-- Per-eye field of view, in degrees (inbound convention). -/
structure Fov where
  left : ℚ
  right : ℚ
  top : ℚ
  bottom : ℚ
  deriving DecidableEq

/-- Value `Fov::default()` (all-zero), the initial `old_fov`. -/
def fovDefault : Fov := ⟨0, 0, 0, 0⟩

structure ViewsConfig where
  ipd_m : ℚ
  fov : Fov × Fov
  deriving DecidableEq

/-- Legacy input block. Modelled from the spec for the parts whose container
types live in `alvr_sockets` (not among the source files): the per-hand bone
collections are sequences whose length the receive loop does not control. -/
structure LegacyInput where
  flags : ℕ
  client_time : ℕ
  frame_index : ℕ
  mounted : ℕ
  controller_flags : ℕ × ℕ
  buttons : ℕ × ℕ
  trackpad_position : (ℚ × ℚ) × (ℚ × ℚ)
  trigger_value : ℚ × ℚ
  grip_value : ℚ × ℚ
  bone_rotations : List QuatQ × List QuatQ
  bone_positions_base : List Vec3Q × List Vec3Q
  hand_finger_confience : ℕ × ℕ
  deriving DecidableEq

/-- Inbound `Input` packet (`target_timestamp` in seconds). -/
structure Input where
  target_timestamp : ℚ
  device_motions : List (ℕ × MotionData)
  views_config : ViewsConfig
  legacy : LegacyInput
  deriving DecidableEq

/-- CAPI `AlvrFov` (radians; left/bottom negative). -/
structure AlvrFovQ where
  left : ℚ
  right : ℚ
  top : ℚ
  bottom : ℚ
  deriving DecidableEq

structure AlvrViewsConfigQ where
  ipd_m : ℚ
  fov0 : AlvrFovQ
  fov1 : AlvrFovQ
  deriving DecidableEq

/-- The degree→radian, sign-inverting conversion applied to each eye when the
input loop publishes a `ViewsConfig` event: `-left / 180 * PI`,
`right / 180 * PI`, `top / 180 * PI`, `-bottom / 180 * PI`.  `PI` is the `f32`
constant approximating π; since π is irrational it is kept as the parameter
`piVal`. -/
def toAlvrFovRad (piVal : ℚ) (f : Fov) : AlvrFovQ :=
  { left := -f.left / 180 * piVal
    right := f.right / 180 * piVal
    top := f.top / 180 * piVal
    bottom := -f.bottom / 180 * piVal }

/-- The `ViewsConfig` event publication decision and payload of the input
receive loop: emitted when the IPD moved by more than `f32::EPSILON` or the eye-0
FOV changed. -/
def inputViewsConfigEvent (piVal oldIpd : ℚ) (oldFov : Fov) (input : Input) :
    Option AlvrViewsConfigQ :=
  if f32Eps < |input.views_config.ipd_m - oldIpd| ∨ input.views_config.fov.1 ≠ oldFov then
    some { ipd_m := input.views_config.ipd_m
           fov0 := toAlvrFovRad piVal input.views_config.fov.1
           fov1 := toAlvrFovRad piVal input.views_config.fov.2 }
  else none

structure TrackingQuat where
  x : ℚ
  y : ℚ
  z : ℚ
  w : ℚ
  deriving DecidableEq

structure TrackingVector3 where
  x : ℚ
  y : ℚ
  z : ℚ
  deriving DecidableEq

def toTrackingQuat (q : QuatQ) : TrackingQuat := ⟨q.x, q.y, q.z, q.w⟩

def toTrackingVector3 (v : Vec3Q) : TrackingVector3 := ⟨v.x, v.y, v.z⟩

/-- One `TrackingInfo_Controller` record (the `[TrackingQuat; 19]` /
`[TrackingVector3; 19]` bone arrays are the lists produced by the checked
copy). -/
structure TrackingInfoController where
  flags : ℕ
  buttons : ℕ
  recenterCount : ℕ
  trackpadPosition : ℚ × ℚ
  triggerValue : ℚ
  gripValue : ℚ
  orientation : TrackingQuat
  position : TrackingVector3
  angularVelocity : TrackingVector3
  linearVelocity : TrackingVector3
  boneRotations : List TrackingQuat
  bonePositionsBase : List TrackingVector3
  boneRootOrientation : TrackingQuat
  boneRootPosition : TrackingVector3
  handFingerConfidences : ℕ
  deriving DecidableEq

structure TrackingInfo where
  type_ : ℕ
  flags : ℕ
  clientTime : ℕ
  FrameIndex : ℕ
  predictedDisplayTime : ℚ
  HeadPose_Pose_Orientation : TrackingQuat
  HeadPose_Pose_Position : TrackingVector3
  Other_Tracking_Source_Position : TrackingVector3
  Other_Tracking_Source_Orientation : TrackingQuat
  mounted : ℕ
  controller : TrackingInfoController × TrackingInfoController
  deriving DecidableEq

/-- Checked copy `array.copy_from_slice(&vec)` into a `[_; 19]` array: panics (modelled as
`none`) unless the source has exactly 19 elements. -/
def copyFromSlice19 {α : Type} (v : List α) : Option (List α) :=
  if v.length = 19 then some v else none

/-- Lookup `input.device_motions.iter().find(|(id, _)| *id == DEVICE_ID)` followed by
`.unwrap()`: `none` models the panic on a missing entry. -/
def findMotion (input : Input) (id : ℕ) : Option MotionData :=
  (input.device_motions.find? (fun p => p.1 == id)).map (fun p => p.2)

def buildController (flags buttons : ℕ) (trackpad : ℚ × ℚ) (trigger grip : ℚ)
    (motion : MotionData) (boneRot : List TrackingQuat) (bonePos : List TrackingVector3)
    (fingerConf : ℕ) : TrackingInfoController :=
  { flags := flags
    buttons := buttons
    recenterCount := 0
    trackpadPosition := trackpad
    triggerValue := trigger
    gripValue := grip
    orientation := toTrackingQuat motion.orientation
    position := toTrackingVector3 motion.position
    angularVelocity := toTrackingVector3 (motion.angular_velocity.getD vec3Zero)
    linearVelocity := toTrackingVector3 (motion.linear_velocity.getD vec3Zero)
    boneRotations := boneRot
    bonePositionsBase := bonePos
    boneRootOrientation := toTrackingQuat motion.orientation
    boneRootPosition := toTrackingVector3 motion.position
    handFingerConfidences := fingerConf }

/-- The `TrackingInfo` construction of the input receive loop
(connection.rs lines 939-1081).  `none` models a panic: a missing
head/left-hand/right-hand entry in `device_motions` (`.find(..).unwrap()`), or a
bone collection whose length is not 19 (`copy_from_slice`). -/
def processInput (input : Input) : Option TrackingInfo := do
  let headMotion ← findMotion input HEAD_ID
  let leftMotion ← findMotion input LEFT_HAND_ID
  let rightMotion ← findMotion input RIGHT_HAND_ID
  let leftBoneRot ← copyFromSlice19 (input.legacy.bone_rotations.1.map toTrackingQuat)
  let leftBonePos ← copyFromSlice19 (input.legacy.bone_positions_base.1.map toTrackingVector3)
  let rightBoneRot ← copyFromSlice19 (input.legacy.bone_rotations.2.map toTrackingQuat)
  let rightBonePos ← copyFromSlice19 (input.legacy.bone_positions_base.2.map toTrackingVector3)
  pure
    { type_ := 6
      flags := input.legacy.flags
      clientTime := input.legacy.client_time
      FrameIndex := input.legacy.frame_index
      predictedDisplayTime := input.target_timestamp
      HeadPose_Pose_Orientation := toTrackingQuat headMotion.orientation
      HeadPose_Pose_Position := toTrackingVector3 headMotion.position
      Other_Tracking_Source_Position := toTrackingVector3 vec3Zero
      Other_Tracking_Source_Orientation := toTrackingQuat quatIdentity
      mounted := input.legacy.mounted
      controller :=
        (buildController input.legacy.controller_flags.1 input.legacy.buttons.1
          input.legacy.trackpad_position.1 input.legacy.trigger_value.1
          input.legacy.grip_value.1 leftMotion leftBoneRot leftBonePos
          input.legacy.hand_finger_confience.1,
         buildController input.legacy.controller_flags.2 input.legacy.buttons.2
          input.legacy.trackpad_position.2 input.legacy.trigger_value.2
          input.legacy.grip_value.2 rightMotion rightBoneRot rightBonePos
          input.legacy.hand_finger_confience.2) }

/-! ## Playspace sync thread (connection.rs lines 1086-1129) -/

structure Vec4Q where
  x : ℚ
  y : ℚ
  z : ℚ
  w : ℚ
  deriving DecidableEq

/-- Column-major 4×4 matrix (named axes are the columns, as in `glam`). -/
structure Mat4Q where
  xAxis : Vec4Q
  yAxis : Vec4Q
  zAxis : Vec4Q
  wAxis : Vec4Q
  deriving DecidableEq

/-- Modelled from the spec: `glam::Mat4::from_rotation_translation` (the `glam`
crate is external to the source files) — the rotation matrix of the quaternion in the
first three columns and the translation as the fourth column. -/
def mat4FromRotationTranslation (q : QuatQ) (t : Vec3Q) : Mat4Q :=
  let x2 := q.x + q.x
  let y2 := q.y + q.y
  let z2 := q.z + q.z
  let xx := q.x * x2
  let xy := q.x * y2
  let xz := q.x * z2
  let yy := q.y * y2
  let yz := q.y * z2
  let zz := q.z * z2
  let wx := q.w * x2
  let wy := q.w * y2
  let wz := q.w * z2
  { xAxis := ⟨1 - (yy + zz), xy + wz, xz - wy, 0⟩
    yAxis := ⟨xy - wz, 1 - (xx + zz), yz + wx, 0⟩
    zAxis := ⟨xz + wy, yz - wx, 1 - (xx + yy), 0⟩
    wAxis := ⟨t.x, t.y, t.z, 1⟩ }

/-- Array `matrix34_row_major` (connection.rs lines 1094-1107): the 12 entries read
component-by-component across the column axes. -/
def matrix34RowMajor (m : Mat4Q) : List ℚ :=
  [m.xAxis.x, m.yAxis.x, m.zAxis.x, m.wAxis.x,
   m.xAxis.y, m.yAxis.y, m.zAxis.y, m.wAxis.y,
   m.xAxis.z, m.yAxis.z, m.zAxis.z, m.wAxis.z]

structure PlayspaceSyncPacket where
  rotation : QuatQ
  position : Vec3Q
  area_width : ℚ
  area_height : ℚ
  perimeter_points : Option (List (ℚ × ℚ))
  deriving DecidableEq

/-- Mapping `perimeter_points.iter().map(|p| [p[0], p[1]]).collect()`, or `vec![]` when
absent. -/
def perimeterPairs (packet : PlayspaceSyncPacket) : List (ℚ × ℚ) :=
  match packet.perimeter_points with
  | some points => points.map (fun p => (p.1, p.2))
  | none => []

/-- Arguments of a `crate::SetChaperone` driver call. -/
structure SetChaperoneCall where
  matrix : List ℚ
  area_width : ℚ
  area_height : ℚ
  perimeter_points : List (ℚ × ℚ)
  perimeter_points_count : ℕ
  deriving DecidableEq

/-- One iteration of the dedicated playspace-sync thread
(connection.rs lines 1092-1127): the transform and point list are built, but
`SetChaperone` is reached only through the `else` branch of
`if let Some(sender) = &*DRIVER_EVENT_SENDER.lock()` — the `Some` branch is
empty, so a registered driver event sender means no driver call (`none`). -/
def playspaceThreadStep (driverEventSenderRegistered : Bool)
    (packet : PlayspaceSyncPacket) : Option SetChaperoneCall :=
  let transform := mat4FromRotationTranslation packet.rotation packet.position
  let matrix := matrix34RowMajor transform
  let points := perimeterPairs packet
  if driverEventSenderRegistered then none
  else
    some { matrix := matrix
           area_width := packet.area_width
           area_height := packet.area_height
           perimeter_points := points
           perimeter_points_count := points.length }

/-- The control loop forwards `PlayspaceSync` packets to the thread (and the
thread is spawned at all) only when `tracking_ref_only` is unset. -/
def playspacePacketForwarded (trackingRefOnly : Bool) : Bool :=
  ! trackingRefOnly

/-- Specification-side definition (from the words of the spec): the row-major 3×4
`[R | t]` matrix — the transpose of the column-major rotation matrix with the
translation as the last entry of each row. -/
def specMatrix34RowMajor (q : QuatQ) (t : Vec3Q) : List ℚ :=
  [1 - 2 * (q.y ^ 2 + q.z ^ 2), 2 * (q.x * q.y - q.w * q.z), 2 * (q.x * q.z + q.w * q.y), t.x,
   2 * (q.x * q.y + q.w * q.z), 1 - 2 * (q.x ^ 2 + q.z ^ 2), 2 * (q.y * q.z - q.w * q.x), t.y,
   2 * (q.x * q.z - q.w * q.y), 2 * (q.y * q.z + q.w * q.x), 1 - 2 * (q.x ^ 2 + q.y ^ 2), t.z]

/-! ## Concrete example values (used by the witness theorems) -/

def exampleControllersSession : ControllersSessionDesc :=
  ⟨"", "", "", "", "", "", "", "", "", "", 0, false, 0, 0, (0, 0, 0), (0, 0, 0),
    0, 0, 0, 0, 0, false⟩

def exampleSessionSettings : SessionSettings :=
  { video :=
      { adaptive_bitrate := ⟨false, ⟨0, 0, ⟨false, ⟨0, 0⟩⟩, 0, 0, 0, 0⟩⟩
        foveated_rendering := ⟨false, ⟨0, 0, 0, 0, 0, 0⟩⟩
        color_correction := ⟨false, ⟨0, 0, 0, 0, 0⟩⟩ }
    headset := { serial_number := "", controllers := ⟨false, exampleControllersSession⟩ }
    connection := ⟨false⟩ }

def exampleSettings : Settings :=
  { video :=
      { render_resolution := .absolute 64 64
        recommended_target_resolution := .absolute 64 64
        preferred_fps := 72
        seconds_from_vsync_to_photons := 0
        adapter_index := 0
        codec := .h264
        use_10bit_encoder := false
        encode_bitrate_mbs := 30 }
    headset :=
      { universe_id := 0
        serial_number := ""
        tracking_system_name := ""
        model_number := ""
        driver_version := ""
        manufacturer_name := ""
        render_model_name := ""
        registered_device_type := ""
        force_3dof := false
        tracking_ref_only := false
        enable_vive_tracker_proxy := false
        position_offset := (0, 0, 0)
        tracking_frame_offset := 0
        controllers := .disabled }
    connection := ⟨8082, false⟩ }

def exampleHeadsetInfo : HeadsetInfoPacket := ⟨1920, 1832, [60, 72, 80, 90], ""⟩

def exampleHeadsetInfoNoRates : HeadsetInfoPacket := ⟨1920, 1832, [], ""⟩

def examplePersisted : OpenvrConfig :=
  { resolveOpenvrConfig exampleSettings exampleSessionSettings exampleHeadsetInfo with
      universe_id := 7 }

def exampleSettingsHugeScale : Settings :=
  { exampleSettings with
      video := { exampleSettings.video with render_resolution := .scale (2 ^ 32) } }

def exampleSessionSettingsABC : SessionSettings :=
  { exampleSessionSettings with
      headset := { exampleSessionSettings.headset with serial_number := "ABC" } }

def exampleLegacy : LegacyInput :=
  ⟨0, 0, 0, 0, (0, 0), (0, 0), ((0, 0), (0, 0)), (0, 0), (0, 0), ([], []), ([], []), (0, 0)⟩

def exampleInputFovChange : Input :=
  { target_timestamp := 0
    device_motions := []
    views_config := { ipd_m := 0, fov := (⟨50, 40, 30, 35⟩, ⟨50, 40, 30, 35⟩) }
    legacy := exampleLegacy }

def examplePlayspacePacket : PlayspaceSyncPacket :=
  { rotation := ⟨0, 0, 0, 1⟩
    position := ⟨1, 2, 3⟩
    area_width := 4
    area_height := 5
    perimeter_points := some [(0, 0), (1, 0)] }

theorem specArgminFirst_eq_none {preferred : ℚ} :
    ∀ {rs : List ℚ}, specArgminFirst preferred rs = none → rs = [] := by
  intro rs h
  cases rs with
  | nil => rfl
  | cons r rest =>
    simp only [specArgminFirst] at h
    cases hrest : specArgminFirst preferred rest with
    | none => rw [hrest] at h; simp at h
    | some b =>
      rw [hrest] at h
      by_cases hle : |r - preferred| ≤ |b - preferred| <;> simp [hle] at h

theorem specArgminFirst_min {preferred : ℚ} :
    ∀ {rs : List ℚ} {m : ℚ}, specArgminFirst preferred rs = some m →
      ∀ r ∈ rs, |m - preferred| ≤ |r - preferred| := by
  intro rs
  induction rs with
  | nil => intro m h; simp [specArgminFirst] at h
  | cons r rest ih =>
    intro m h x hx
    simp only [specArgminFirst] at h
    cases hrest : specArgminFirst preferred rest with
    | none =>
      rw [hrest] at h
      simp at h
      have : rest = [] := specArgminFirst_eq_none hrest
      subst this
      rcases List.mem_singleton.mp hx with rfl
      simp [h]
    | some b =>
      rw [hrest] at h
      by_cases hle : |r - preferred| ≤ |b - preferred|
      · simp [hle] at h
        subst h
        rcases List.mem_cons.mp hx with rfl | hx'
        · exact le_refl _
        · exact le_trans hle (ih hrest _ hx')
      · simp [hle] at h
        subst h
        rcases List.mem_cons.mp hx with rfl | hx'
        · exact le_of_lt (lt_of_not_le hle)
        · exact ih hrest _ hx'

theorem specArgminFirst_isSome {preferred : ℚ} {rs : List ℚ} (h : rs ≠ []) :
    ∃ m, specArgminFirst preferred rs = some m := by
  cases rs with
  | nil => exact absurd rfl h
  | cons r rest =>
    simp only [specArgminFirst]
    cases specArgminFirst preferred rest with
    | none => exact ⟨r, rfl⟩
    | some b =>
      by_cases hle : |r - preferred| ≤ |b - preferred|
      · exact ⟨r, by simp [hle]⟩
      · exact ⟨b, by simp [hle]⟩

theorem selectFpsLoop_const {preferred : ℚ} :
    ∀ {rs : List ℚ} (b d : ℚ), (∀ r ∈ rs, d ≤ |r - preferred|) →
      selectFpsLoop preferred rs (b, d) = (b, d) := by
  intro rs
  induction rs with
  | nil => intro b d _; rfl
  | cons r rest ih =>
    intro b d h
    have hr : d ≤ |r - preferred| := h r (List.mem_cons_self r rest)
    simp only [selectFpsLoop, not_lt.mpr hr, if_neg (not_lt.mpr hr)]
    exact ih b d fun x hx => h x (List.mem_cons_of_mem r hx)

theorem selectFpsLoop_argmin {preferred : ℚ} :
    ∀ {rs : List ℚ} {b d : ℚ}, (∃ r ∈ rs, |r - preferred| < d) →
      ∃ m, specArgminFirst preferred rs = some m ∧
        (selectFpsLoop preferred rs (b, d)).1 = m := by
  intro rs
  induction rs with
  | nil => intro b d h; simp at h
  | cons r rest ih =>
    intro b d h
    by_cases hr : |r - preferred| < d
    · -- the head replaces the accumulator
      by_cases hrest : ∃ x ∈ rest, |x - preferred| < |r - preferred|
      · obtain ⟨m, hm, hres⟩ := ih (b := r) (d := |r - preferred|) hrest
        refine ⟨m, ?_, ?_⟩
        · obtain ⟨x, hx, hxlt⟩ := hrest
          have hmin := specArgminFirst_min hm x hx
          have hnle : ¬ |r - preferred| ≤ |m - preferred| :=
            not_le.mpr (lt_of_le_of_lt hmin hxlt)
          simp [specArgminFirst, hm, hnle]
        · simpa [selectFpsLoop, hr] using hres
      · push_neg at hrest
        refine ⟨r, ?_, ?_⟩
        · cases hsome : specArgminFirst preferred rest with
          | none => simp [specArgminFirst, hsome]
          | some bb =>
            have hbb := specArgminFirst_mem hsome
            have : |r - preferred| ≤ |bb - preferred| := hrest bb hbb
            simp [specArgminFirst, hsome, this]
        · have hconst := selectFpsLoop_const r (|r - preferred|) hrest
          simp [selectFpsLoop, hr, hconst]
    · -- the head is skipped
      have hd : d ≤ |r - preferred| := not_lt.mp hr
      obtain ⟨x, hx, hxd⟩ := h
      rcases List.mem_cons.mp hx with rfl | hx'
      · exact absurd hxd hr
      · obtain ⟨m, hm, hres⟩ := ih (b := b) (d := d) ⟨x, hx', hxd⟩
        have hmx := specArgminFirst_min hm x hx'
        have hmr : ¬ |r - preferred| ≤ |m - preferred| :=
          not_le.mpr (lt_of_lt_of_le (lt_of_le_of_lt hmx hxd) hd)
        exact ⟨m, by simp only [specArgminFirst, hm, if_neg hmr], by
          simpa [selectFpsLoop, hr] using hres⟩

/-! ## Shared helper lemmas -/

theorem castU32_mul32_mod (k : ℤ) (h : k * 32 ≤ (u32Max : ℤ)) :
    castU32 (k * 32) % 32 = 0 := by
  unfold castU32 u32Max at *
  split
  · simp
  · omega

theorem align32_mod (v : ℚ) (h : align32Pre v ≤ (u32Max : ℤ)) :
    align32 v % 32 = 0 :=
  castU32_mul32_mod ⌊v / 32⌋ h

theorem findMotion_isSome_iff (input : Input) (id : ℕ) :
    (findMotion input id).isSome ↔ ∃ m, (id, m) ∈ input.device_motions := by
  constructor
  · intro hs
    cases hfind : input.device_motions.find? (fun p => p.1 == id) with
    | none => rw [findMotion, hfind] at hs; simp at hs
    | some pr =>
      have hmem := List.mem_of_find?_eq_some hfind
      have hpred := List.find?_some hfind
      simp only [beq_iff_eq] at hpred
      refine ⟨pr.2, ?_⟩
      rw [← hpred]
      exact hmem
  · rintro ⟨m, hm⟩
    have hs : (input.device_motions.find? (fun p => p.1 == id)).isSome := by
      rw [List.find?_isSome]
      exact ⟨(id, m), hm, by simp⟩
    rw [findMotion]
    cases hfind : input.device_motions.find? (fun p => p.1 == id) with
    | none => rw [hfind] at hs; simp at hs
    | some pr => simp

/-! ## Claim theorems -/

/-- C1 (confirmed):  Resolving the same `OpenvrConfig` twice does not
trigger a restart the second time: when the persisted config differs from the
newly resolved one, `client_handshake` persists the new value, sends
`Restarting`, requests a driver restart and parks forever; a second handshake
under the same settings, session settings and headset info resolves an equal
config and returns a connection without restarting. -/
theorem openvr_config_same_config_no_restart (p : OpenvrConfig) (s : Settings)
    (ss : SessionSettings) (hi : HeadsetInfoPacket)
    (h : p ≠ resolveOpenvrConfig s ss hi) :
    (clientHandshake p s ss hi).outcome = .restartPark ∧
    (clientHandshake p s ss hi).persistedAfter = resolveOpenvrConfig s ss hi ∧
    (clientHandshake p s ss hi).restartingSent = true ∧
    (clientHandshake p s ss hi).driverRestartRequested = true ∧
    (clientHandshake (clientHandshake p s ss hi).persistedAfter s ss hi).outcome = .connected ∧
    (clientHandshake (clientHandshake p s ss hi).persistedAfter s ss hi).restartingSent
      = false ∧
    (clientHandshake (clientHandshake p s ss hi).persistedAfter s ss hi).driverRestartRequested
      = false := by
  simp [clientHandshake, clientHandshakeFinish, h]

theorem openvr_config_same_config_no_restart_witness :
    (clientHandshake examplePersisted exampleSettings exampleSessionSettings
        exampleHeadsetInfo).outcome = .restartPark ∧
    (clientHandshake
        (clientHandshake examplePersisted exampleSettings exampleSessionSettings
          exampleHeadsetInfo).persistedAfter
        exampleSettings exampleSessionSettings exampleHeadsetInfo).outcome = .connected := by
  have hne : examplePersisted ≠
      resolveOpenvrConfig exampleSettings exampleSessionSettings exampleHeadsetInfo := by
    intro h
    have h7 : examplePersisted.universe_id = 7 := rfl
    have h0 : (resolveOpenvrConfig exampleSettings exampleSessionSettings
        exampleHeadsetInfo).universe_id = 0 := rfl
    rw [h, h0] at h7
    exact absurd h7 (by norm_num)
  have hmain := openvr_config_same_config_no_restart examplePersisted exampleSettings
    exampleSessionSettings exampleHeadsetInfo hne
  exact ⟨hmain.1, hmain.2.2.2.2.1⟩

/-- C2 counterexample:  The claim "the chosen fps equals the element of
`available_refresh_rates` that minimizes `|rate − preferred_fps|`" fails when
every offered rate is at distance ≥ `f32::MAX` from the preferred fps: with
`available = [f32::MAX]` and `preferred = 0`, the loop never updates
`best_match` (the distance is not strictly below the initial
`min_diff = f32::MAX`), so the chosen fps is `0`, not the argmin `f32::MAX`. -/
theorem refresh_rate_argmin_counterexample :
    selectFps 0 [f32Max] = 0 ∧
    specArgminFirst 0 [f32Max] = some f32Max ∧
    (0 : ℚ) ≠ f32Max := by
  refine ⟨?_, rfl, by norm_num [f32Max]⟩
  have habs : ¬ |f32Max| < f32Max := by
    rw [abs_of_nonneg (by norm_num [f32Max] : (0 : ℚ) ≤ f32Max)]
    exact lt_irrefl _
  simp [selectFps, selectFpsLoop, habs]

/-- C2 (corrected):  Provided some offered rate is at distance strictly
below `f32::MAX` from the preferred fps (true of every realistic rate list, but
not in general since `min_diff` starts at `f32::MAX`, see the counterexample),
the chosen fps is the element of `available_refresh_rates` minimizing
`|rate − preferred_fps|`, ties broken by first occurrence; and the
unsupported-rate warning is emitted exactly when the preferred fps is not
among the offered rates. -/
theorem refresh_rate_closest_match (preferred : ℚ) (rates : List ℚ)
    (h : ∃ r ∈ rates, |r - preferred| < f32Max) :
    some (selectFps preferred rates) = specArgminFirst preferred rates ∧
    (refreshRateWarning preferred rates = true ↔ preferred ∉ rates) := by
  constructor
  · obtain ⟨m, hm, hres⟩ := selectFpsLoop_argmin (b := 0) (d := f32Max) h
    rw [selectFps, hres, hm]
  · simp [refreshRateWarning]

theorem refresh_rate_closest_match_witness :
    some (selectFps 75 [60, 72, 80, 90]) = specArgminFirst 75 [60, 72, 80, 90] ∧
    (refreshRateWarning 75 [60, 72, 80, 90] = true ↔ (75 : ℚ) ∉ [(60 : ℚ), 72, 80, 90]) :=
  refresh_rate_closest_match 75 [60, 72, 80, 90]
    ⟨60, by norm_num, by norm_num [f32Max]⟩

/-- C3 (code bug):  The claim says `to_capi_prop` truncates string values to
at most 63 content bytes plus a NUL, never writing past the 64-byte buffer.  The
source copies `c_string.as_bytes_with_nul().len()` bytes with no truncation: for
a 70-character string it copies 71 bytes into the 64-byte `raw_string` buffer,
overrunning it by 7 bytes. -/
theorem to_capi_prop_string_overruns_buffer :
    toCapiPropStringCopyLen (String.mk (List.replicate 70 'a')) = 71 ∧
    ¬ toCapiPropStringCopyLen (String.mk (List.replicate 70 'a')) ≤ 64 := by
  constructor <;> decide

/-- C4 counterexample:  The claim says a too-long serial is truncated to
`max_length − 1` content bytes plus a NUL terminator.  With serial `"ABC"` and
`max_length = 2` the source copies `min(4, 2) = 2` bytes — the content bytes
`['A', 'B']` with no NUL — not `['A', NUL]`. -/
theorem serial_number_truncation_counterexample :
    alvrGetSerialNumber exampleSessionSettingsABC HEAD_ID 2 = some ['A', 'B'] ∧
    (['A', 'B'] : List Char) ≠ ['A', nulChar] ∧
    nulChar ∉ (['A', 'B'] : List Char) := by
  refine ⟨?_, by decide, by decide⟩
  decide

/-- C4 (corrected):  For a supported path (and a serial without interior
NUL), `alvr_get_serial_number` writes `min(len+1, max_length)` bytes of the
NUL-terminated composed serial: the full NUL-terminated string when it fits
(`len + 1 ≤ max_length`), and exactly `max_length` content bytes with **no** NUL
terminator when the value is longer; never more than `max_length` bytes. -/
theorem serial_number_write_bounded (ss : SessionSettings) (path : ℕ) (maxLength : ℕ)
    (value : String) (hval : serialNumberValue ss path = some value)
    (hnul : value.data.contains nulChar = false) :
    ∃ written, alvrGetSerialNumber ss path maxLength = some written ∧
      written.length ≤ maxLength ∧
      (value.data.length + 1 ≤ maxLength → written = value.data ++ [nulChar]) ∧
      (maxLength ≤ value.data.length → written = value.data.take maxLength ∧
        nulChar ∉ written) := by
  have hlen : (value.data ++ [nulChar]).length = value.data.length + 1 := by simp
  refine ⟨(value.data ++ [nulChar]).take (min (value.data ++ [nulChar]).length maxLength),
    ?_, ?_, ?_, ?_⟩
  · have hnotmem : nulChar ∉ value.data := by simpa using hnul
    simp [alvrGetSerialNumber, hval, hnotmem]
  · simp only [List.length_take, hlen]
    omega
  · intro hfit
    have hmin : min (value.data ++ [nulChar]).length maxLength
        = (value.data ++ [nulChar]).length := by
      rw [hlen]; omega
    rw [hmin, List.take_length]
  · intro hlong
    have hmin : min (value.data ++ [nulChar]).length maxLength = maxLength := by
      rw [hlen]; omega
    rw [hmin]
    have htake : (value.data ++ [nulChar]).take maxLength = value.data.take maxLength := by
      rw [List.take_append_of_le_length hlong]
    refine ⟨htake, ?_⟩
    have hnotmem : nulChar ∉ value.data := by simpa using hnul
    intro hmem
    rw [htake] at hmem
    exact hnotmem (List.take_subset _ _ hmem)

theorem serial_number_write_bounded_witness :
    ∃ written, alvrGetSerialNumber exampleSessionSettingsABC HEAD_ID 2 = some written ∧
      written.length ≤ 2 ∧
      ("ABC".data.length + 1 ≤ 2 → written = "ABC".data ++ [nulChar]) ∧
      (2 ≤ "ABC".data.length → written = "ABC".data.take 2 ∧ nulChar ∉ written) :=
  serial_number_write_bounded exampleSessionSettingsABC HEAD_ID 2 "ABC"
    (by decide) (by decide)

/-- C5 counterexample:  The claim says every packet received by the
playspace-sync thread (with `tracking_ref_only` unset) leads to a `SetChaperone`
driver call.  The `if let Some(sender) = &*DRIVER_EVENT_SENDER.lock()` branch of
the thread body is empty, so with a registered driver event sender (the normal
state after `alvr_initialize`) the packet is consumed without any driver call. -/
theorem playspace_chaperone_skipped_counterexample :
    playspaceThreadStep true examplePlayspacePacket = none :=
  rfl

/-- C5 (corrected):  For every `PlayspaceSyncPacket`: when no driver event
sender is registered, the thread calls `SetChaperone` with the row-major 3×4
`[R | t]` matrix (the transposed column-major rotation+translation transform)
and the `[x, y]` perimeter point pairs; when a sender is registered the packet
is consumed with no driver call; and the playspace path is skipped entirely
when `tracking_ref_only` is set. -/
theorem playspace_chaperone_call (packet : PlayspaceSyncPacket) :
    playspaceThreadStep false packet =
      some { matrix := specMatrix34RowMajor packet.rotation packet.position
             area_width := packet.area_width
             area_height := packet.area_height
             perimeter_points := perimeterPairs packet
             perimeter_points_count := (perimeterPairs packet).length } ∧
    playspaceThreadStep true packet = none ∧
    playspacePacketForwarded true = false := by
  refine ⟨?_, rfl, rfl⟩
  simp only [playspaceThreadStep, matrix34RowMajor, mat4FromRotationTranslation,
    specMatrix34RowMajor, if_neg (Bool.false_ne_true), Option.some.injEq,
    SetChaperoneCall.mk.injEq, List.cons.injEq, and_true, List.nil_eq]
  norm_num
  refine ⟨?_, ?_, ?_, ?_, ?_, ?_, ?_, ?_, ?_⟩ <;> ring

/-- C6 (confirmed):  Whenever the input receive loop publishes a
`ViewsConfig` event (IPD moved beyond `f32::EPSILON` or eye-0 FOV changed), the
event carries each eye's FOV converted from degrees to radians with left and
bottom sign-inverted (`piVal` stands for the `PI` constant). -/
theorem views_config_event_radians (piVal oldIpd : ℚ) (oldFov : Fov) (input : Input)
    (ev : AlvrViewsConfigQ)
    (h : inputViewsConfigEvent piVal oldIpd oldFov input = some ev) :
    ev.ipd_m = input.views_config.ipd_m ∧
    ev.fov0.left = -(input.views_config.fov.1.left) * piVal / 180 ∧
    ev.fov0.right = input.views_config.fov.1.right * piVal / 180 ∧
    ev.fov0.top = input.views_config.fov.1.top * piVal / 180 ∧
    ev.fov0.bottom = -(input.views_config.fov.1.bottom) * piVal / 180 ∧
    ev.fov1.left = -(input.views_config.fov.2.left) * piVal / 180 ∧
    ev.fov1.right = input.views_config.fov.2.right * piVal / 180 ∧
    ev.fov1.top = input.views_config.fov.2.top * piVal / 180 ∧
    ev.fov1.bottom = -(input.views_config.fov.2.bottom) * piVal / 180 := by
  rw [inputViewsConfigEvent] at h
  split at h
  · rw [Option.some.injEq] at h
    subst h
    refine ⟨rfl, ?_, ?_, ?_, ?_, ?_, ?_, ?_, ?_⟩ <;> simp [toAlvrFovRad] <;> ring
  · exact absurd h (Option.noConfusion)

theorem views_config_event_radians_witness :
    ∃ ev, inputViewsConfigEvent 3 0 fovDefault exampleInputFovChange = some ev ∧
      ev.fov0.left = -(50 : ℚ) * 3 / 180 ∧ ev.fov0.right = (40 : ℚ) * 3 / 180 ∧
      ev.fov0.top = (30 : ℚ) * 3 / 180 ∧ ev.fov0.bottom = -(35 : ℚ) * 3 / 180 := by
  have h : inputViewsConfigEvent 3 0 fovDefault exampleInputFovChange =
      some { ipd_m := 0
             fov0 := toAlvrFovRad 3 ⟨50, 40, 30, 35⟩
             fov1 := toAlvrFovRad 3 ⟨50, 40, 30, 35⟩ } := by
    rw [inputViewsConfigEvent]
    rw [if_pos]
    · rfl
    · right
      intro hfov
      have := congrArg Fov.left hfov
      norm_num [exampleInputFovChange, fovDefault] at this
  have hmain := views_config_event_radians 3 0 fovDefault exampleInputFovChange _ h
  exact ⟨_, h, hmain.2.1, hmain.2.2.1, hmain.2.2.2.1, hmain.2.2.2.2.1⟩

/-- C7 counterexample:  The claim says every resolved eye dimension is a
multiple of 32, but the `as u32` cast in `align32` saturates: with a scale
factor of `2³²` and a recommended eye width of 1920, the pre-cast value
`1920·2³²` exceeds `u32::MAX`, so the emitted width is `u32::MAX = 4294967295`,
which is ≡ 31 (mod 32). -/
theorem eye_dims_saturation_counterexample :
    (videoEyeDims exampleSettingsHugeScale exampleHeadsetInfo).1 = 4294967295 ∧
    (videoEyeDims exampleSettingsHugeScale exampleHeadsetInfo).1 % 32 ≠ 0 := by
  have hval : (videoEyeDims exampleSettingsHugeScale exampleHeadsetInfo).1 = 4294967295 := by
    show align32 ((1920 : ℚ) * 2 ^ 32) = 4294967295
    rw [align32]
    have hfloor : ⌊(1920 : ℚ) * 2 ^ 32 / 32⌋ = 257698037760 := by norm_num
    rw [hfloor]
    rw [castU32]
    norm_num [u32Max]
  exact ⟨hval, by rw [hval]; norm_num⟩

/-- C7 (corrected):  Each of the four resolved eye dimensions (stream and
render-target, width and height), under both `Scale` and `Absolute` frame-size
modes, is a multiple of 32 — provided its pre-cast value `⌊size/32⌋·32` does not
exceed `u32::MAX` (otherwise the saturating cast yields `u32::MAX`, see the
counterexample). -/
theorem eye_dims_multiple_of_32 (s : Settings) (hi : HeadsetInfoPacket)
    (h1 : align32Pre (eyeSizesRaw s.video.render_resolution hi).1 ≤ (u32Max : ℤ))
    (h2 : align32Pre (eyeSizesRaw s.video.render_resolution hi).2 ≤ (u32Max : ℤ))
    (h3 : align32Pre (eyeSizesRaw s.video.recommended_target_resolution hi).1 ≤ (u32Max : ℤ))
    (h4 : align32Pre (eyeSizesRaw s.video.recommended_target_resolution hi).2 ≤ (u32Max : ℤ)) :
    (videoEyeDims s hi).1 % 32 = 0 ∧ (videoEyeDims s hi).2 % 32 = 0 ∧
    (targetEyeDims s hi).1 % 32 = 0 ∧ (targetEyeDims s hi).2 % 32 = 0 :=
  ⟨align32_mod _ h1, align32_mod _ h2, align32_mod _ h3, align32_mod _ h4⟩

theorem eye_dims_multiple_of_32_witness :
    (videoEyeDims exampleSettings exampleHeadsetInfo).1 % 32 = 0 ∧
    (videoEyeDims exampleSettings exampleHeadsetInfo).2 % 32 = 0 ∧
    (targetEyeDims exampleSettings exampleHeadsetInfo).1 % 32 = 0 ∧
    (targetEyeDims exampleSettings exampleHeadsetInfo).2 % 32 = 0 := by
  have hw : align32Pre (eyeSizesRaw (FrameSize.absolute 64 64) exampleHeadsetInfo).1
      ≤ (u32Max : ℤ) := by
    show align32Pre ((64 : ℚ) / 2) ≤ (u32Max : ℤ)
    rw [align32Pre]
    norm_num [u32Max]
  have hh : align32Pre (eyeSizesRaw (FrameSize.absolute 64 64) exampleHeadsetInfo).2
      ≤ (u32Max : ℤ) := by
    show align32Pre ((64 : ℚ)) ≤ (u32Max : ℤ)
    rw [align32Pre]
    norm_num [u32Max]
  exact eye_dims_multiple_of_32 exampleSettings exampleHeadsetInfo hw hh hw hh

/-- C8 (confirmed):  The input receive loop builds its `TrackingInfo` (and
so processes an `Input` without panicking) exactly when `device_motions`
contains an entry for each of `HEAD_ID`, `LEFT_HAND_ID` and `RIGHT_HAND_ID` and
each of the four legacy bone collections has exactly 19 elements; otherwise a
`.find(..).unwrap()` or a `copy_from_slice` panics. -/
theorem input_receive_panic_free_iff (input : Input) :
    (processInput input).isSome ↔
      ((∃ m, (HEAD_ID, m) ∈ input.device_motions) ∧
       (∃ m, (LEFT_HAND_ID, m) ∈ input.device_motions) ∧
       (∃ m, (RIGHT_HAND_ID, m) ∈ input.device_motions) ∧
       input.legacy.bone_rotations.1.length = 19 ∧
       input.legacy.bone_rotations.2.length = 19 ∧
       input.legacy.bone_positions_base.1.length = 19 ∧
       input.legacy.bone_positions_base.2.length = 19) := by
  rw [← findMotion_isSome_iff, ← findMotion_isSome_iff, ← findMotion_isSome_iff]
  rw [processInput]
  cases hh : findMotion input HEAD_ID with
  | none => simp [hh]
  | some headMotion =>
    cases hl : findMotion input LEFT_HAND_ID with
    | none => simp [hh, hl]
    | some leftMotion =>
      cases hr : findMotion input RIGHT_HAND_ID with
      | none => simp [hh, hl, hr]
      | some rightMotion =>
        simp [hh, hl, hr, copyFromSlice19, Option.bind]
        by_cases c1 : input.legacy.bone_rotations.1.length = 19 <;>
          by_cases c2 : input.legacy.bone_rotations.2.length = 19 <;>
            by_cases c3 : input.legacy.bone_positions_base.1.length = 19 <;>
              by_cases c4 : input.legacy.bone_positions_base.2.length = 19 <;>
                simp [c1, c2, c3, c4]

/-- C9 (confirmed):  `alvr_get_serial_number` is defined only for the three
well-known top-level paths; any other path reaches `unreachable!()` and panics
(modelled as `none`) instead of returning normally. -/
theorem serial_number_unsupported_path_panics (ss : SessionSettings) (path : ℕ)
    (h1 : path ≠ HEAD_ID) (h2 : path ≠ LEFT_HAND_ID) (h3 : path ≠ RIGHT_HAND_ID) :
    serialNumberValue ss path = none ∧
    ∀ maxLength, alvrGetSerialNumber ss path maxLength = none := by
  have hv : serialNumberValue ss path = none := by
    simp [serialNumberValue, h1, h2, h3]
  exact ⟨hv, fun maxLength => by simp [alvrGetSerialNumber, hv]⟩

theorem serial_number_unsupported_path_panics_witness :
    serialNumberValue exampleSessionSettings 0 = none ∧
    ∀ maxLength, alvrGetSerialNumber exampleSessionSettings 0 maxLength = none :=
  serial_number_unsupported_path_panics exampleSessionSettings 0
    (by decide) (by decide) (by decide)

/-- C10 (confirmed):  With an empty `available_refresh_rates` list the
selection loop never runs, so `best_match` keeps its initial value `0`: the
unsupported-rate warning is emitted, the `ClientConfigPacket` is sent with
`fps = 0`, and the resolved `OpenvrConfig` records `refresh_rate = 0`. -/
theorem empty_refresh_rates_fps_zero (s : Settings) (ss : SessionSettings)
    (hi : HeadsetInfoPacket) (serverIp : String) (gameAudioSampleRate : ℕ)
    (h : hi.available_refresh_rates = []) :
    selectFps s.video.preferred_fps hi.available_refresh_rates = 0 ∧
    refreshRateWarning s.video.preferred_fps hi.available_refresh_rates = true ∧
    (clientConfigPacket s hi serverIp gameAudioSampleRate).fps = 0 ∧
    (resolveOpenvrConfig s ss hi).refresh_rate = 0 := by
  have hfps : selectFps s.video.preferred_fps hi.available_refresh_rates = 0 := by
    rw [h]; rfl
  refine ⟨hfps, ?_, ?_, ?_⟩
  · rw [h]; rfl
  · show selectFps s.video.preferred_fps hi.available_refresh_rates = 0
    exact hfps
  · show f32ToU32 (selectFps s.video.preferred_fps hi.available_refresh_rates) = 0
    rw [hfps, f32ToU32]
    norm_num [castU32]

theorem empty_refresh_rates_fps_zero_witness :
    selectFps exampleSettings.video.preferred_fps
      exampleHeadsetInfoNoRates.available_refresh_rates = 0 ∧
    refreshRateWarning exampleSettings.video.preferred_fps
      exampleHeadsetInfoNoRates.available_refresh_rates = true ∧
    (clientConfigPacket exampleSettings exampleHeadsetInfoNoRates "192.168.1.2" 0).fps = 0 ∧
    (resolveOpenvrConfig exampleSettings exampleSessionSettings
      exampleHeadsetInfoNoRates).refresh_rate = 0 :=
  empty_refresh_rates_fps_zero exampleSettings exampleSessionSettings
    exampleHeadsetInfoNoRates "192.168.1.2" 0 rfl

end ALVRServer
